import Mathlib

/-!
Verification development for the dwallet withdrawal pipeline.

Shallow embedding of:
  * `adapters/storage.py`  — the local transaction ledger (`tx_local` table DAO),
  * `core/withdraw.py`     — balance guard and withdrawal orchestration,
  * `core/tx_builder.py`   — fee suggestion and gas-limit selection,
  * `core/broadcaster.py`  — broadcast and receipt polling,
  * `configs/chain_registry.py` — chain identifier resolution.

Network and cryptographic effects (RPC queries, keystore decryption, ECDSA
signing) are modelled as oracle outcomes supplied through environment records:
each `Except`-valued field is the result the corresponding external call would
produce.  Machine integers are modelled as `Nat` (Python integers are
unbounded, so no modular wraparound is involved).  SQLite rows are modelled as
a list of records; each DAO function is a pure state transformer mirroring the
single SQL statement it executes.
-/

namespace Dwallet

/-! ### Python string primitives

The Python string methods the code relies on (`str.lower`, `str.strip`,
`str.isdigit`, `int(str)`, `str.startswith`), modelled on the character list
of a `String` so that they reduce by kernel computation (the behaviour is the
ASCII behaviour, which is all the code's inputs use: hex hashes, addresses,
chain aliases). -/

/-- `str.lower` on one ASCII character. -/
def pyLowerChar (c : Char) : Char :=
  if 65 ≤ c.toNat ∧ c.toNat ≤ 90 then Char.ofNat (c.toNat + 32) else c

/-- Python `s.lower()`. -/
def pyLower (s : String) : String :=
  ⟨s.data.map pyLowerChar⟩

/-- Whitespace for `str.strip`. -/
def pyIsSpace (c : Char) : Bool :=
  c == ' ' || c == '\t' || c == '\n' || c == '\r'

/-- Python `s.strip()`. -/
def pyStrip (s : String) : String :=
  ⟨((s.data.dropWhile pyIsSpace).reverse.dropWhile pyIsSpace).reverse⟩

/-- Python `s.isdigit()`: non-empty and all digits. -/
def pyIsDigit (s : String) : Bool :=
  !s.data.isEmpty && s.data.all Char.isDigit

/-- Python `int(s)` on an all-digits string. -/
def pyToNat (s : String) : Nat :=
  s.data.foldl (fun acc c => acc * 10 + (c.toNat - 48)) 0

/-- One row of the `tx_local` table (`init_db` in `adapters/storage.py`):
hash TEXT PRIMARY KEY, sender, [to], value_wei TEXT, nonce, chain_id, status,
raw BLOB, submitted_at, updated_at.  The raw BLOB is modelled as the hex
payload string that `bytes.fromhex` decodes. -/
structure TxRecord where
  hash : String
  sender : String
  recipient : Option String
  value_wei : String
  nonce : Nat
  chain_id : Nat
  status : String
  raw : Option String
  submitted_at : Option Nat
  updated_at : Nat
deriving Repr, DecidableEq

/-- Errors surfaced by the ledger DAO.  `duplicateHash` models the
`sqlite3.IntegrityError` raised when the PRIMARY KEY constraint on `hash`
is violated (spec name: `DuplicateHash`). -/
inductive LedgerErr
| duplicateHash
deriving Repr, DecidableEq

/-- SQL `COALESCE(a, b)`: first non-null argument. -/
def coalesce (a b : Option Nat) : Option Nat :=
  match a with
  | some v => some v
  | none => b

/-- The BLOB stored for a raw transaction:
`bytes.fromhex(raw_hex[2:]) if (raw_hex and raw_hex.startswith('0x')) else None`
(`insert_tx_local`, `adapters/storage.py`).  The decoded bytes are modelled by
the hex payload itself. -/
def rawBlobOf (raw_hex : Option String) : Option String :=
  match raw_hex with
  | some s =>
    match s.data with
    | '0' :: 'x' :: rest => some ⟨rest⟩
    | _ => none
  | none => none

/-- `insert_tx_local` (`adapters/storage.py` lines 81-111): INSERT a row keyed
by the lowercased hash; the PRIMARY KEY makes the statement fail (and write
nothing) when a row with that hash already exists.  Returns the statement
outcome together with the resulting table state; `ts = int(time.time())`. -/
def insert_tx_local (led : List TxRecord) (hash_hex sender : String)
    (toAddr : Option String) (value_wei : Nat) (nonce chain_id : Nat)
    (status : String) (raw_hex : Option String) (submitted_at : Option Nat)
    (ts : Nat) : Except LedgerErr Unit × List TxRecord :=
  let key := pyLower hash_hex
  if led.any (fun r => r.hash == key) then
    (.error .duplicateHash, led)
  else
    (.ok (), led ++ [{ hash := key, sender := pyLower sender,
                       recipient := toAddr.map pyLower,
                       value_wei := toString value_wei, nonce := nonce,
                       chain_id := chain_id, status := status,
                       raw := rawBlobOf raw_hex, submitted_at := submitted_at,
                       updated_at := ts }])

/-- `update_tx_status` (`adapters/storage.py` lines 113-121):
`UPDATE tx_local SET status = ?, submitted_at = COALESCE(?, submitted_at),
updated_at = ? WHERE hash = ?` with the probe hash lowercased.  A missing row
is a no-op (zero rows updated). -/
def update_tx_status (led : List TxRecord) (hash_hex status : String)
    (submitted_at : Option Nat) (ts : Nat) : List TxRecord :=
  led.map (fun r =>
    if r.hash == pyLower hash_hex then
      { r with status := status,
               submitted_at := coalesce submitted_at r.submitted_at,
               updated_at := ts }
    else r)

/-- `get_tx` (`adapters/storage.py` lines 123-144): SELECT by lowercased hash. -/
def get_tx (led : List TxRecord) (hash_hex : String) : Option TxRecord :=
  led.find? (fun r => r.hash == pyLower hash_hex)

/-- Pairwise distinctness of the primary-key column. -/
def hashesUnique (led : List TxRecord) : Prop :=
  List.Pairwise (fun a b => a.hash ≠ b.hash) led

/-! ### Balance guard, fee suggestion, gas-limit selection -/

/-- Error raised by the balance guard: `ValueError("INSUFFICIENT_FUNDS:
balance={bal} need>={need}")` carries the observed balance and the required
amount (spec name: `InsufficientFunds`). -/
inductive BalanceErr
| insufficientFunds (balance required : Nat)
deriving Repr, DecidableEq

/-- `_ensure_eth_balance_enough` (`core/withdraw.py` lines 11-18) applied to
the balance the RPC returned: `need = value + gas_limit * max_fee_per_gas`;
raise iff `bal < need`. -/
def _ensure_eth_balance_enough (bal value_wei gas_limit max_fee_per_gas : Nat) :
    Except BalanceErr Unit :=
  let need := value_wei + gas_limit * max_fee_per_gas
  if bal < need then .error (.insufficientFunds bal need) else .ok ()

/-- Result of `suggest_fees_1559` (`core/tx_builder.py`). -/
structure FeeSuggestion where
  baseFeePerGas : Option Nat
  maxPriorityFeePerGas : Nat
  maxFeePerGas : Nat
deriving Repr, DecidableEq

/-- `suggest_fees_1559` (`core/tx_builder.py` lines 98-111), given the pending
block's `baseFeePerGas` (absent on a pre-1559 network), the node's legacy
`gas_price`, and the clamped priority fee already converted to wei
(`tip = w3.to_wei(priority_fee_gwei, "gwei")`).  With a base fee:
`max_fee = base * 2 + tip`.  Without: legacy pricing, tip 0, max fee =
gas price. -/
def suggest_fees_1559 (base : Option Nat) (gas_price tip_wei : Nat) :
    FeeSuggestion :=
  match base with
  | none => { baseFeePerGas := none, maxPriorityFeePerGas := 0,
              maxFeePerGas := gas_price }
  | some b => { baseFeePerGas := some b, maxPriorityFeePerGas := tip_wei,
                maxFeePerGas := b * 2 + tip_wei }

/-- Gas-limit selection in `build_tx_1559` (`core/tx_builder.py` lines
140-174).  `gas_limit` is the caller-supplied override; `est` is the outcome
of `w3.eth.estimate_gas` (`none` when it raised); `hasData` tells whether the
draft carries call-data.  `int(est * 1.5)` is `(3 * est) / 2` in exact
integer arithmetic. -/
def chooseGasLimit (gas_limit : Option Nat) (est : Option Nat) (hasData : Bool) :
    Nat :=
  match gas_limit with
  | some g => g
  | none =>
    match est with
    | some e => max ((3 * e) / 2) (if hasData then 50000 else 21000)
    | none => if hasData then 100000 else 50000

/-! ### Broadcaster and receipt polling (`core/broadcaster.py`) -/

/-- A transaction receipt; `status` is the success flag the orchestrator
checks (`int(r.get("status", 0)) == 1`). -/
structure Receipt where
  status : Nat
deriving Repr, DecidableEq

/-- Outcome of one `w3.eth.get_transaction_receipt` call inside the polling
loop of `wait_receipt` (`core/broadcaster.py` lines 47-60): the receipt was
found, the transaction was not found yet, or some other RPC error was raised. -/
inductive PollResult
| found (r : Receipt)
| notFound
| rpcError (msg : String)
deriving Repr, DecidableEq

/-- The polling loop of `wait_receipt` over the finite list of lookup attempts
that fit before the deadline.  Returns the receipt found (if any) together
with the number of `time.sleep(poll_sec)` calls executed: the loop returns
immediately on a found receipt, otherwise sleeps and retries; exhausting the
attempts (deadline) yields `none`, never an error. -/
def wait_receipt_loop : List PollResult → Option Receipt × Nat
  | [] => (none, 0)
  | .found r :: _ => (some r, 0)
  | .notFound :: rest =>
    let p := wait_receipt_loop rest
    (p.1, p.2 + 1)
  | .rpcError _ :: rest =>
    let p := wait_receipt_loop rest
    (p.1, p.2 + 1)

/-- Number of loop iterations of `while time.time() < deadline` when each
lookup is instantaneous and every iteration ends with `time.sleep(poll_sec)`:
iteration `k` starts at `k * poll_sec` and runs iff that is `< timeout_sec`,
giving `⌈timeout_sec / poll_sec⌉` iterations (for a positive poll interval). -/
def numPolls (timeout_sec poll_sec : Nat) : Nat :=
  (timeout_sec + poll_sec - 1) / poll_sec

/-- `wait_receipt` (`core/broadcaster.py` lines 42-64): poll the receipt
oracle until found or the deadline passes; the `oracle` gives the outcome of
the k-th lookup. -/
def broadcaster_wait_receipt (oracle : Nat → PollResult)
    (timeout_sec poll_sec : Nat) : Option Receipt × Nat :=
  wait_receipt_loop ((List.range (numPolls timeout_sec poll_sec)).map oracle)

/-! ### Withdrawal orchestration (`core/withdraw.py`) -/

/-- The fields of the built transaction dict that `withdraw_eth` reads:
`tx["gas"]` and `tx["nonce"]` (`build_tx_1559` output). -/
structure BuiltTx where
  gas : Nat
  nonce : Nat
deriving Repr, DecidableEq

/-- Output of `sign_tx_1559`: raw signed hex and the transaction hash. -/
structure SignedTx where
  raw : String
  hash : String
deriving Repr, DecidableEq

/-- Failure modes of the signer (`core/signer.py`): `ACCOUNT_NOT_FOUND`,
`KEYSTORE_MISSING`, `BAD_PASSWORD` (spec name `BadCredential`),
`ADDRESS_MISMATCH`, `MISSING_FIELDS`. -/
inductive SignErr
| accountNotFound
| keystoreMissing
| badPassword
| addressMismatch
| missingFields
deriving Repr, DecidableEq

/-- Failure modes of a withdrawal, mirroring which step of `withdraw_eth`
raised. -/
inductive WithdrawErr
| buildFailed (msg : String)
| feeFailed (msg : String)
| balanceFailed (msg : String)
| insufficientFunds (balance required : Nat)
| signFailed (e : SignErr)
| duplicateHash
| broadcastFailed (msg : String)
deriving Repr, DecidableEq

/-- Observable ledger/network actions of one withdrawal, in execution order. -/
inductive Event
| ledgerInsert (hash status : String)
| broadcastAttempt
| ledgerUpdate (hash status : String) (submitted_at : Option Nat)
deriving Repr, DecidableEq

/-- Oracle outcomes for the external calls `withdraw_eth` makes, in program
order: `build_tx_1559`, `suggest_fees_1559`, `w3.eth.get_balance`,
`sign_tx_1559`, `send_raw_tx`; `now` is `int(time.time())`. -/
structure WithdrawEnv where
  buildRes : Except String BuiltTx
  feeRes : Except String FeeSuggestion
  balanceRes : Except String Nat
  signRes : Except SignErr SignedTx
  broadcastRes : Except String String
  now : Nat

/-- Return value of `withdraw_eth`: `{"hash": h2, "raw": ...}`. -/
structure WithdrawResult where
  hash : String
  raw : String
deriving Repr, DecidableEq

/-- `withdraw_eth` (`core/withdraw.py` lines 20-55): build → fee re-check →
balance guard → sign → ledger INSERT (status SIGNED) → broadcast →
ledger UPDATE (status BROADCAST, submitted_at = now).  Any failure aborts the
remaining steps; the ledger state is threaded through and the trace records
the ledger writes that actually happened and the broadcast attempt. -/
def withdraw_eth (env : WithdrawEnv) (led : List TxRecord) (chain_id : Nat)
    (from_addr toAddr : String) (value_wei : Nat) :
    Except WithdrawErr WithdrawResult × List TxRecord × List Event :=
  match env.buildRes with
  | .error e => (.error (.buildFailed e), led, [])
  | .ok tx =>
    match env.feeRes with
    | .error e => (.error (.feeFailed e), led, [])
    | .ok fees =>
      match env.balanceRes with
      | .error e => (.error (.balanceFailed e), led, [])
      | .ok bal =>
        match _ensure_eth_balance_enough bal value_wei tx.gas fees.maxFeePerGas with
        | .error (.insufficientFunds b n) =>
          (.error (.insufficientFunds b n), led, [])
        | .ok _ =>
          match env.signRes with
          | .error se => (.error (.signFailed se), led, [])
          | .ok signed =>
            match insert_tx_local led signed.hash from_addr (some toAddr)
                value_wei tx.nonce chain_id "SIGNED" (some signed.raw) none
                env.now with
            | (.error _, led1) => (.error .duplicateHash, led1, [])
            | (.ok _, led1) =>
              match env.broadcastRes with
              | .error e =>
                (.error (.broadcastFailed e), led1,
                 [Event.ledgerInsert (pyLower signed.hash) "SIGNED",
                  Event.broadcastAttempt])
              | .ok h2 =>
                (.ok { hash := h2, raw := signed.raw },
                 update_tx_status led1 h2 "BROADCAST" (some env.now) env.now,
                 [Event.ledgerInsert (pyLower signed.hash) "SIGNED",
                  Event.broadcastAttempt,
                  Event.ledgerUpdate (pyLower h2) "BROADCAST" (some env.now)])

/-- Oracle data for the orchestrator-level `wait_receipt`
(`core/withdraw.py` lines 57-62). -/
structure WaitEnv where
  oracle : Nat → PollResult
  timeout_sec : Nat
  poll_sec : Nat
  now : Nat

/-- `wait_receipt` (`core/withdraw.py` lines 57-62): delegate to the
broadcaster's polling loop; when a receipt with success flag 1 is returned,
UPDATE the ledger record to CONFIRMED (with `submitted_at` argument omitted). -/
def withdraw_wait_receipt (wenv : WaitEnv) (led : List TxRecord)
    (tx_hash : String) : Option Receipt × List TxRecord × List Event :=
  match (broadcaster_wait_receipt wenv.oracle wenv.timeout_sec wenv.poll_sec).1 with
  | some r =>
    if r.status == 1 then
      (some r, update_tx_status led tx_hash "CONFIRMED" none wenv.now,
       [Event.ledgerUpdate (pyLower tx_hash) "CONFIRMED" none])
    else (some r, led, [])
  | none => (none, led, [])

/-- The orchestrated flow with `wait=True` (`withdraw_entry` in
`tests/test_withdraw.py`): run `withdraw_eth`; on success, wait for the
receipt of the returned hash.  Traces are concatenated in execution order. -/
def withdraw_and_wait (env : WithdrawEnv) (wenv : WaitEnv)
    (led : List TxRecord) (chain_id : Nat) (from_addr toAddr : String)
    (value_wei : Nat) :
    Except WithdrawErr (WithdrawResult × Option Receipt) × List TxRecord ×
      List Event :=
  match withdraw_eth env led chain_id from_addr toAddr value_wei with
  | (.error e, led1, tr1) => (.error e, led1, tr1)
  | (.ok res, led1, tr1) =>
    let w := withdraw_wait_receipt wenv led1 res.hash
    (.ok (res, w.1), w.2.1, tr1 ++ w.2.2)

/-- The successive status values written for hash `h` by a trace of ledger
events. -/
def statusWritesFor (h : String) : List Event → List String
  | [] => []
  | Event.ledgerInsert h2 st :: rest =>
    if h2 == h then st :: statusWritesFor h rest else statusWritesFor h rest
  | Event.broadcastAttempt :: rest => statusWritesFor h rest
  | Event.ledgerUpdate h2 st _ :: rest =>
    if h2 == h then st :: statusWritesFor h rest else statusWritesFor h rest

/-! ### Chain registry (`configs/chain_registry.py`) -/

/-- One entry of `chains.yaml`: `chainId` and `name` (the fields
`build_chain_mapping` reads). -/
structure ChainCfg where
  chainId : Nat
  name : String
deriving Repr, DecidableEq

/-- Does `needle` occur at the head of `hay`? (used to model Python's
substring operator `in`). -/
def leadsWith : List Char → List Char → Bool
  | [], _ => true
  | _ :: _, [] => false
  | a :: as, b :: bs => a == b && leadsWith as bs

/-- Does `needle` occur as a contiguous segment of `hay`? -/
def hasSegment (needle : List Char) : List Char → Bool
  | [] => needle.isEmpty
  | c :: t => leadsWith needle (c :: t) || hasSegment needle t

/-- Python `pat in s` on strings. -/
def strContains (s pat : String) : Bool :=
  hasSegment pat.toList s.toList

/-- Python dict assignment `m[k] = v`: replace the value at an existing key in
place, else append the new key (insertion-ordered dict). -/
def dictInsert (m : List (String × Nat)) (k : String) (v : Nat) :
    List (String × Nat) :=
  if m.any (fun p => p.1 == k) then
    m.map (fun p => if p.1 == k then (k, v) else p)
  else m ++ [(k, v)]

/-- Python dict lookup `m[k]` / `k in m` (the last assignment wins). -/
def dictGet (m : List (String × Nat)) (k : String) : Option Nat :=
  ((m.filter (fun p => p.1 == k)).getLast?).map (fun p => p.2)

/-- `build_chain_mapping` (`configs/chain_registry.py` lines 22-58): for each
chain add `str(chain_id)`, the lowercased name, and pattern-derived aliases. -/
def build_chain_mapping (chains : List ChainCfg) : List (String × Nat) :=
  chains.foldl (fun m chain =>
    let cid := chain.chainId
    let lname := pyLower chain.name
    let m := dictInsert m (toString cid) cid
    let m := dictInsert m lname cid
    let m :=
      if strContains lname "ethereum" then
        if strContains lname "mainnet" then
          dictInsert (dictInsert (dictInsert m "ethereum" cid) "eth" cid)
            "mainnet" cid
        else m
      else m
    let m :=
      if strContains lname "base" then
        if strContains lname "mainnet" then dictInsert m "base" cid
        else if strContains lname "sepolia" then
          dictInsert (dictInsert m "base-sepolia" cid) "basesepolia" cid
        else m
      else m
    let m :=
      if strContains lname "sepolia" && !strContains lname "base" then
        dictInsert (dictInsert m "sepolia" cid) "eth-sepolia" cid
      else m
    m) []

/-- Lexicographic ≤ on character lists (code-point order, as Python string
comparison). -/
def charListLe : List Char → List Char → Bool
  | [], _ => true
  | _ :: _, [] => false
  | a :: as, b :: bs => a.toNat < b.toNat || (a == b && charListLe as bs)

/-- Python `a <= b` on strings. -/
def pyStrLe (a b : String) : Bool :=
  charListLe a.data b.data

/-- Insert a string into a ≤-sorted list (ASCII code-point order, as Python's
`sorted`). -/
def insortStr (x : String) : List String → List String
  | [] => [x]
  | y :: ys => if pyStrLe x y then x :: y :: ys else y :: insortStr x ys

/-- Python `sorted(...)` on a list of strings. -/
def sortStrings (l : List String) : List String :=
  l.foldr insortStr []

/-- `sorted(set(k for k in mapping.keys() if not k.isdigit()))`
(`resolve_chain_id`, `configs/chain_registry.py` line 114). -/
def availableChains (m : List (String × Nat)) : List String :=
  sortStrings (((m.map (fun p => p.1)).filter (fun k => !pyIsDigit k)).dedup)

/-- `ValueError("Unknown chain identifier: ...")` carrying the list of
available non-numeric identifiers embedded in its message (spec name:
`UnknownChain`). -/
inductive ChainErr
| unknownChain (available : List String)
deriving Repr, DecidableEq

/-- `resolve_chain_id` (`configs/chain_registry.py` lines 73-118): an `int` is
returned as-is; an all-digits string is parsed; otherwise the identifier is
lowercased and stripped and looked up in the alias mapping; no match raises
`UnknownChain` listing every non-numeric key. -/
def resolve_chain_id (chains : List ChainCfg) (chain : Nat ⊕ String) :
    Except ChainErr Nat :=
  match chain with
  | .inl n => .ok n
  | .inr s =>
    if pyIsDigit s then .ok (pyToNat s)
    else
      let mapping := build_chain_mapping chains
      match dictGet mapping (pyStrip (pyLower s)) with
      | some cid => .ok cid
      | none => .error (.unknownChain (availableChains mapping))

/-- Modelled from the spec: the repository's `configs/chains.yaml` (the static
chain list loaded by `load_chains_config`) is not present under `src/`.  The
spec's examples name Base Mainnet = 8453, Sepolia = 11155111, Ethereum
Mainnet = 1, plus a Base Sepolia testnet (alias `base-sepolia`); this list
reconstructs those entries. -/
def chainsConfig : List ChainCfg :=
  [{ chainId := 1, name := "Ethereum Mainnet" },
   { chainId := 8453, name := "Base Mainnet" },
   { chainId := 11155111, name := "Ethereum Sepolia" },
   { chainId := 84532, name := "Base Sepolia" }]

/-- Decidable equality for `Except` results (not provided by core). -/
instance {ε α : Type} [DecidableEq ε] [DecidableEq α] :
    DecidableEq (Except ε α) := fun x y =>
  match x, y with
  | .ok a, .ok b =>
    if h : a = b then .isTrue (by rw [h])
    else .isFalse (fun hc => h (Except.ok.inj hc))
  | .error a, .error b =>
    if h : a = b then .isTrue (by rw [h])
    else .isFalse (fun hc => h (Except.error.inj hc))
  | .ok _, .error _ => .isFalse (fun hc => Except.noConfusion hc)
  | .error _, .ok _ => .isFalse (fun hc => Except.noConfusion hc)

/-! ## Theorems -/

/-- Claim C5: the balance guard raises `InsufficientFunds` carrying the
observed balance and the required amount exactly when
`balance < value + gas_limit * max_fee_per_gas`, accepts otherwise, and a
balance exactly equal to the required amount is accepted. -/
theorem c5_balance_guard (bal value_wei gas_limit max_fee : Nat) :
    (_ensure_eth_balance_enough bal value_wei gas_limit max_fee
        = .error (.insufficientFunds bal (value_wei + gas_limit * max_fee))
      ↔ bal < value_wei + gas_limit * max_fee)
    ∧ (_ensure_eth_balance_enough bal value_wei gas_limit max_fee = .ok ()
      ↔ value_wei + gas_limit * max_fee ≤ bal)
    ∧ _ensure_eth_balance_enough (value_wei + gas_limit * max_fee) value_wei
        gas_limit max_fee = .ok () := by
  refine ⟨?_, ?_, ?_⟩ <;>
    simp only [_ensure_eth_balance_enough] <;> split <;> simp_all

/-- Witness for C5 at balance 10, value 5, gas 2, fee 3 (required 11). -/
theorem c5_balance_guard_witness :
    _ensure_eth_balance_enough 10 5 2 3 = .error (.insufficientFunds 10 11)
    ∧ _ensure_eth_balance_enough 11 5 2 3 = .ok () :=
  ⟨(c5_balance_guard 10 5 2 3).1.mpr (by decide),
   (c5_balance_guard 11 5 2 3).2.1.mpr (by decide)⟩

/-- Claim C6 is falsified: with no explicit gas limit, no call-data and a raw
estimate of 14001, the chosen gas limit is `int(14001 * 1.5) = 21001`, which
is strictly below `1.5 × 14001 = 21001.5`: the claim "at least 1.5 times the
raw estimate" fails because Python's `int(...)` truncates. -/
theorem c6_counterexample :
    2 * chooseGasLimit none (some 14001) false < 3 * 14001 := by decide

/-- Claim C6 (amended): an explicit gas limit bypasses estimation; the chosen
limit is always at least the type-appropriate floor (21000 without call-data,
50000 with); with a raw estimate it is at least `⌊1.5 × raw⌋`; on estimation
failure the fixed fallback (50000 / 100000) is used. -/
theorem c6_gas_limit (est : Option Nat) (hasData : Bool) :
    (∀ g, chooseGasLimit (some g) est hasData = g)
    ∧ (if hasData then (50000 : Nat) else 21000) ≤ chooseGasLimit none est hasData
    ∧ (∀ e, est = some e → (3 * e) / 2 ≤ chooseGasLimit none est hasData)
    ∧ (est = none → chooseGasLimit none est hasData
        = if hasData then 100000 else 50000) := by
  refine ⟨fun g => rfl, ?_, ?_, ?_⟩ <;>
    cases est <;> cases hasData <;>
      simp [chooseGasLimit, le_max_iff]

/-- Witness for C6 (amended) at estimate 4 / no data, and at failed
estimation with data. -/
theorem c6_gas_limit_witness :
    chooseGasLimit (some 777) (some 4) false = 777
    ∧ (3 * 4) / 2 ≤ chooseGasLimit none (some 4) false
    ∧ chooseGasLimit none none true = 100000 :=
  ⟨(c6_gas_limit (some 4) false).1 777,
   (c6_gas_limit (some 4) false).2.2.1 4 rfl,
   (c6_gas_limit none true).2.2.2 rfl⟩

/-- Claim C7: whenever the chain reports a base fee, the fee suggestion
returns `max_fee = base_fee * 2 + priority_fee`, hence never a `max_fee`
smaller than `base_fee + priority_fee`, for every base fee and every clamped
priority fee. -/
theorem c7_max_fee (base gas_price tip_wei : Nat) :
    (suggest_fees_1559 (some base) gas_price tip_wei).maxFeePerGas
      = base * 2 + tip_wei
    ∧ base + tip_wei
      ≤ (suggest_fees_1559 (some base) gas_price tip_wei).maxFeePerGas := by
  refine ⟨rfl, ?_⟩
  simp only [suggest_fees_1559]
  omega

/-- A polling run none of whose attempts found a receipt returns `none` after
sleeping once per attempt. -/
theorem wait_receipt_loop_no_found (l : List PollResult)
    (h : ∀ rc : Receipt, PollResult.found rc ∉ l) :
    wait_receipt_loop l = (none, l.length) := by
  induction l with
  | nil => rfl
  | cons p t ih =>
    have ht : ∀ rc : Receipt, PollResult.found rc ∉ t := by
      intro rc hmem
      exact h rc (List.mem_cons_of_mem _ hmem)
    cases p with
    | found rc => exact absurd (List.mem_cons_self _ _) (h rc)
    | notFound => simp [wait_receipt_loop, ih ht]
    | rpcError m => simp [wait_receipt_loop, ih ht]

/-- Claim C8: the receipt waiter returns the receipt immediately when a lookup
finds one; a not-yet-visible lookup and any other lookup error are both
retried after one sleep of the poll interval; and when no attempt within the
deadline finds a receipt the waiter returns `none` (absent) — by its type it
cannot raise. -/
theorem c8_wait_receipt (oracle : Nat → PollResult)
    (timeout_sec poll_sec : Nat) (r : Receipt) (rest : List PollResult)
    (m : String) :
    wait_receipt_loop (.found r :: rest) = (some r, 0)
    ∧ wait_receipt_loop (.notFound :: rest)
        = ((wait_receipt_loop rest).1, (wait_receipt_loop rest).2 + 1)
    ∧ wait_receipt_loop (.rpcError m :: rest)
        = ((wait_receipt_loop rest).1, (wait_receipt_loop rest).2 + 1)
    ∧ ((∀ k, ∀ rc : Receipt, oracle k ≠ .found rc) →
        broadcaster_wait_receipt oracle timeout_sec poll_sec
          = (none, numPolls timeout_sec poll_sec)) := by
  refine ⟨rfl, rfl, rfl, fun hno => ?_⟩
  have hnotin : ∀ rc : Receipt,
      PollResult.found rc ∉
        (List.range (numPolls timeout_sec poll_sec)).map oracle := by
    intro rc hmem
    rcases List.mem_map.mp hmem with ⟨k, _, hk⟩
    exact hno k rc hk
  simp only [broadcaster_wait_receipt]
  rw [wait_receipt_loop_no_found _ hnotin]
  simp

/-- Witness for C8: an oracle that never finds a receipt, timeout 10,
poll interval 3 — four attempts, result absent. -/
theorem c8_wait_receipt_witness :
    broadcaster_wait_receipt (fun _ => PollResult.notFound) 10 3 = (none, 4) :=
  (c8_wait_receipt (fun _ => PollResult.notFound) 10 3 { status := 0 } [] "").2.2.2
    (fun _ _ h => PollResult.noConfusion h)

/-- The outcome of one ledger INSERT: either the duplicate-hash rejection with
the table untouched, or success with exactly the new row appended. -/
theorem insert_tx_local_spec (led : List TxRecord) (h sender : String)
    (toAddr : Option String) (v n cid : Nat) (st : String)
    (raw : Option String) (sub : Option Nat) (ts : Nat) :
    ((∃ r ∈ led, r.hash = pyLower h)
      ∧ insert_tx_local led h sender toAddr v n cid st raw sub ts
          = (.error .duplicateHash, led))
    ∨ ((∀ r ∈ led, r.hash ≠ pyLower h)
      ∧ insert_tx_local led h sender toAddr v n cid st raw sub ts
          = (.ok (), led ++
              [{ hash := pyLower h, sender := pyLower sender,
                 recipient := toAddr.map pyLower,
                 value_wei := toString v, nonce := n, chain_id := cid,
                 status := st, raw := rawBlobOf raw, submitted_at := sub,
                 updated_at := ts }])) := by
  by_cases hdup : led.any (fun r => r.hash == pyLower h)
  · left
    rcases List.any_eq_true.mp hdup with ⟨r, hr, hbeq⟩
    exact ⟨⟨r, hr, by simpa using hbeq⟩, by simp [insert_tx_local, hdup]⟩
  · right
    refine ⟨?_, by simp [insert_tx_local, hdup]⟩
    intro r hr
    have := List.any_eq_false.mp (Bool.of_not_eq_true hdup) r hr
    simpa using this

/-- Claim C4: re-inserting a hash already present (in any hex casing) fails
with `DuplicateHash` and leaves the table unchanged; after a successful
insert, a second insert of the same hash in any casing is rejected; and the
hash column stays a unique key. -/
theorem c4_duplicate_hash (led : List TxRecord) (h sender : String)
    (toAddr : Option String) (v n cid : Nat) (st : String)
    (raw : Option String) (sub : Option Nat) (ts : Nat) :
    ((∃ r ∈ led, r.hash = pyLower h) →
      insert_tx_local led h sender toAddr v n cid st raw sub ts
        = (.error .duplicateHash, led))
    ∧ (∀ u led1,
        insert_tx_local led h sender toAddr v n cid st raw sub ts
          = (.ok u, led1) →
        (∀ h2 sender2 toAddr2 v2 n2 cid2 st2 raw2 sub2 ts2,
          pyLower h2 = pyLower h →
          insert_tx_local led1 h2 sender2 toAddr2 v2 n2 cid2 st2 raw2 sub2 ts2
            = (.error .duplicateHash, led1))
        ∧ (hashesUnique led → hashesUnique led1)) := by
  rcases insert_tx_local_spec led h sender toAddr v n cid st raw sub ts with
    ⟨hex, heq⟩ | ⟨hnone, heq⟩
  · refine ⟨fun _ => heq, fun u led1 hok => ?_⟩
    rw [heq] at hok
    have := congrArg Prod.fst hok
    simp at this
  · refine ⟨fun hex => ?_, fun u led1 hok => ?_⟩
    · rcases hex with ⟨r, hr, hrh⟩
      exact absurd hrh (hnone r hr)
    · rw [heq] at hok
      have hled1 : led1 = led ++
          [{ hash := pyLower h, sender := pyLower sender,
             recipient := toAddr.map pyLower,
             value_wei := toString v, nonce := n, chain_id := cid,
             status := st, raw := rawBlobOf raw, submitted_at := sub,
             updated_at := ts }] := (congrArg Prod.snd hok).symm
    -- the appended row carries the lowercased hash, so any same-hash probe hits it
      constructor
      · intro h2 sender2 toAddr2 v2 n2 cid2 st2 raw2 sub2 ts2 h2low
        have hany : led1.any (fun r => r.hash == pyLower h2) = true := by
          refine List.any_eq_true.mpr
            ⟨{ hash := pyLower h, sender := pyLower sender,
               recipient := toAddr.map pyLower,
               value_wei := toString v, nonce := n, chain_id := cid,
               status := st, raw := rawBlobOf raw, submitted_at := sub,
               updated_at := ts }, ?_, ?_⟩
          · rw [hled1]
            exact List.mem_append_right _ (List.mem_singleton.mpr rfl)
          · simpa using h2low.symm
        simp [insert_tx_local, hany]
      · intro huniq
        rw [hled1]
        unfold hashesUnique at huniq ⊢
        rw [List.pairwise_append]
        refine ⟨huniq, List.pairwise_singleton _ _, ?_⟩
        intro a ha b hb
        rw [List.mem_singleton.mp hb]
        exact hnone a ha

/-- A sample ledger row used by concrete witnesses. -/
def recEx : TxRecord :=
  { hash := "0xab", sender := "0xsender", recipient := some "0xdead",
    value_wei := "5", nonce := 7, chain_id := 1, status := "SIGNED",
    raw := some "01", submitted_at := none, updated_at := 10 }

/-- Witness for C4: with a record for `0xab` present, inserting `0xAB` is
rejected with `DuplicateHash` and the table is unchanged. -/
theorem c4_duplicate_hash_witness :
    insert_tx_local [recEx] "0xAB" "0xsender" (some "0xdead") 5 7 1 "SIGNED"
        (some "0x01") none 11
      = (.error .duplicateHash, [recEx]) :=
  (c4_duplicate_hash [recEx] "0xAB" "0xsender" (some "0xdead") 5 7 1 "SIGNED"
      (some "0x01") none 11).1
    ⟨recEx, List.mem_singleton.mpr rfl, by decide⟩

/-- Claim C10: `update_tx_status` keeps every row's hash, sender, recipient,
value, nonce, chain id and raw bytes, and when the `submitted_at` argument is
omitted (`None`) the stored `submitted_at` is preserved — so marking a record
CONFIRMED does not erase its broadcast timestamp. -/
theorem c10_update_frame (led : List TxRecord) (h st : String)
    (sub : Option Nat) (ts : Nat) :
    (update_tx_status led h st sub ts).length = led.length
    ∧ ∀ (i : Nat) (hi : i < led.length)
        (hi2 : i < (update_tx_status led h st sub ts).length),
        ((update_tx_status led h st sub ts).get ⟨i, hi2⟩).hash
            = (led.get ⟨i, hi⟩).hash
        ∧ ((update_tx_status led h st sub ts).get ⟨i, hi2⟩).sender
            = (led.get ⟨i, hi⟩).sender
        ∧ ((update_tx_status led h st sub ts).get ⟨i, hi2⟩).recipient
            = (led.get ⟨i, hi⟩).recipient
        ∧ ((update_tx_status led h st sub ts).get ⟨i, hi2⟩).value_wei
            = (led.get ⟨i, hi⟩).value_wei
        ∧ ((update_tx_status led h st sub ts).get ⟨i, hi2⟩).nonce
            = (led.get ⟨i, hi⟩).nonce
        ∧ ((update_tx_status led h st sub ts).get ⟨i, hi2⟩).chain_id
            = (led.get ⟨i, hi⟩).chain_id
        ∧ ((update_tx_status led h st sub ts).get ⟨i, hi2⟩).raw
            = (led.get ⟨i, hi⟩).raw
        ∧ (sub = none →
            ((update_tx_status led h st sub ts).get ⟨i, hi2⟩).submitted_at
              = (led.get ⟨i, hi⟩).submitted_at) := by
  constructor
  · simp [update_tx_status]
  · intro i hi hi2
    have hget : (update_tx_status led h st sub ts).get ⟨i, hi2⟩
        = (fun r : TxRecord =>
            if r.hash == pyLower h then
              { r with status := st,
                       submitted_at := coalesce sub r.submitted_at,
                       updated_at := ts }
            else r) (led.get ⟨i, hi⟩) := by
      simp [update_tx_status, List.get_eq_getElem, List.getElem_map]
    rw [hget]
    simp only []
    split
    · refine ⟨rfl, rfl, rfl, rfl, rfl, rfl, rfl, ?_⟩
      intro hnone
      subst hnone
      simp [coalesce]
    · exact ⟨rfl, rfl, rfl, rfl, rfl, rfl, rfl, fun _ => rfl⟩

/-- A broadcast row with a recorded submission time, for the C10 witness. -/
def recEx2 : TxRecord :=
  { hash := "0xaa", sender := "0xsender", recipient := some "0xdead",
    value_wei := "5", nonce := 7, chain_id := 1, status := "BROADCAST",
    raw := some "01", submitted_at := some 42, updated_at := 11 }

/-- Witness for C10: confirming a broadcast record with `submitted_at = None`
keeps the stored broadcast timestamp 42 and the raw bytes. -/
theorem c10_update_frame_witness :
    ((update_tx_status [recEx2] "0xAA" "CONFIRMED" none 99).get
        ⟨0, by decide⟩).submitted_at = some 42
    ∧ ((update_tx_status [recEx2] "0xAA" "CONFIRMED" none 99).get
        ⟨0, by decide⟩).raw = some "01" := by
  have H := (c10_update_frame [recEx2] "0xAA" "CONFIRMED" none 99).2 0
    (by decide) (by decide)
  refine ⟨?_, ?_⟩
  · exact (H.2.2.2.2.2.2.2 rfl).trans rfl
  · exact H.2.2.2.2.2.2.1.trans rfl

/-- Claim C3 is falsified as stated: the exposed ledger operations do not
enforce monotonicity.  After inserting `0xaa` as SIGNED and updating it to
BROADCAST, a further exposed `update_tx_status` call moves the same record
back to SIGNED — a backward transition. -/
theorem c3_counterexample :
    (get_tx (update_tx_status (update_tx_status
        (insert_tx_local [] "0xaa" "0xsender" (some "0xdead") 5 7 1 "SIGNED"
          (some "0x01") none 10).2
        "0xaa" "BROADCAST" (some 11) 11) "0xaa" "SIGNED" none 12)
      "0xaa").map TxRecord.status = some "SIGNED"
    ∧ (get_tx (update_tx_status
        (insert_tx_local [] "0xaa" "0xsender" (some "0xdead") 5 7 1 "SIGNED"
          (some "0x01") none 10).2
        "0xaa" "BROADCAST" (some 11) 11) "0xaa").map TxRecord.status
      = some "BROADCAST" := by decide

/-- Exhaustive characterization of `withdraw_eth`: one disjunct per abort
point plus the success case, each recording the exact result, ledger state
and event trace. -/
theorem withdraw_eth_cases (env : WithdrawEnv) (led : List TxRecord)
    (cid : Nat) (fa ta : String) (v : Nat) :
    (∃ e, withdraw_eth env led cid fa ta v = (.error (.buildFailed e), led, []))
    ∨ (∃ e, withdraw_eth env led cid fa ta v = (.error (.feeFailed e), led, []))
    ∨ (∃ e, withdraw_eth env led cid fa ta v
        = (.error (.balanceFailed e), led, []))
    ∨ (∃ b n, withdraw_eth env led cid fa ta v
        = (.error (.insufficientFunds b n), led, []))
    ∨ (∃ se, env.signRes = .error se
        ∧ withdraw_eth env led cid fa ta v = (.error (.signFailed se), led, []))
    ∨ (withdraw_eth env led cid fa ta v = (.error .duplicateHash, led, []))
    ∨ (∃ tx s led1 e, env.buildRes = .ok tx ∧ env.signRes = .ok s
        ∧ env.broadcastRes = .error e
        ∧ insert_tx_local led s.hash fa (some ta) v tx.nonce cid "SIGNED"
            (some s.raw) none env.now = (.ok (), led1)
        ∧ withdraw_eth env led cid fa ta v
          = (.error (.broadcastFailed e), led1,
             [Event.ledgerInsert (pyLower s.hash) "SIGNED",
              Event.broadcastAttempt]))
    ∨ (∃ tx s led1 h2, env.buildRes = .ok tx ∧ env.signRes = .ok s
        ∧ env.broadcastRes = .ok h2
        ∧ insert_tx_local led s.hash fa (some ta) v tx.nonce cid "SIGNED"
            (some s.raw) none env.now = (.ok (), led1)
        ∧ withdraw_eth env led cid fa ta v
          = (.ok { hash := h2, raw := s.raw },
             update_tx_status led1 h2 "BROADCAST" (some env.now) env.now,
             [Event.ledgerInsert (pyLower s.hash) "SIGNED",
              Event.broadcastAttempt,
              Event.ledgerUpdate (pyLower h2) "BROADCAST" (some env.now)])) := by
  rcases hb : env.buildRes with e | tx
  · exact Or.inl ⟨e, by simp [withdraw_eth, hb]⟩
  rcases hf : env.feeRes with e | fees
  · exact Or.inr (Or.inl ⟨e, by simp [withdraw_eth, hb, hf]⟩)
  rcases hbal : env.balanceRes with e | bal
  · exact Or.inr (Or.inr (Or.inl ⟨e, by simp [withdraw_eth, hb, hf, hbal]⟩))
  rcases hens : _ensure_eth_balance_enough bal v tx.gas fees.maxFeePerGas
    with be | u
  · rcases be with ⟨b, n⟩
    exact Or.inr (Or.inr (Or.inr (Or.inl
      ⟨b, n, by simp [withdraw_eth, hb, hf, hbal, hens]⟩)))
  rcases hs : env.signRes with se | s
  · exact Or.inr (Or.inr (Or.inr (Or.inr (Or.inl
      ⟨se, rfl, by simp [withdraw_eth, hb, hf, hbal, hens, hs]⟩))))
  rcases insert_tx_local_spec led s.hash fa (some ta) v tx.nonce cid "SIGNED"
    (some s.raw) none env.now with ⟨hex, heq⟩ | ⟨hnone, heq⟩
  · refine Or.inr (Or.inr (Or.inr (Or.inr (Or.inr (Or.inl ?_)))))
    simp [withdraw_eth, hb, hf, hbal, hens, hs, heq]
  rcases hbr : env.broadcastRes with e | h2
  · refine Or.inr (Or.inr (Or.inr (Or.inr (Or.inr (Or.inr (Or.inl
      ⟨tx, s, _, e, rfl, rfl, rfl, heq, ?_⟩))))))
    simp [withdraw_eth, hb, hf, hbal, hens, hs, heq, hbr]
  · refine Or.inr (Or.inr (Or.inr (Or.inr (Or.inr (Or.inr (Or.inr
      ⟨tx, s, _, h2, rfl, rfl, rfl, heq, ?_⟩))))))
    simp [withdraw_eth, hb, hf, hbal, hens, hs, heq, hbr]

/-- Claim C1: in every withdrawal execution, the broadcast is attempted only
after the SIGNED ledger insert (the insert is the first event, the attempt the
second), and a BROADCAST status write happens only when the raw-transaction
submission returned successfully — it targets the accepted hash, carries
`submitted_at = now`, and sits strictly after the broadcast attempt. -/
theorem c1_signed_before_broadcast (env : WithdrawEnv) (led : List TxRecord)
    (cid : Nat) (fa ta : String) (v : Nat) :
    (Event.broadcastAttempt ∈ (withdraw_eth env led cid fa ta v).2.2 →
      ∃ s, env.signRes = .ok s
        ∧ (withdraw_eth env led cid fa ta v).2.2.head?
            = some (Event.ledgerInsert (pyLower s.hash) "SIGNED")
        ∧ (withdraw_eth env led cid fa ta v).2.2.get? 1
            = some Event.broadcastAttempt)
    ∧ (∀ h st t,
        Event.ledgerUpdate h st t ∈ (withdraw_eth env led cid fa ta v).2.2 →
        st = "BROADCAST" ∧ t = some env.now
        ∧ ∃ h2, env.broadcastRes = .ok h2 ∧ h = pyLower h2
        ∧ (withdraw_eth env led cid fa ta v).2.2.get? 1
            = some Event.broadcastAttempt
        ∧ (withdraw_eth env led cid fa ta v).2.2.get? 2
            = some (Event.ledgerUpdate (pyLower h2) "BROADCAST"
                (some env.now))) := by
  rcases withdraw_eth_cases env led cid fa ta v with
    ⟨e, hw⟩ | ⟨e, hw⟩ | ⟨e, hw⟩ | ⟨b, n, hw⟩ | ⟨se, _, hw⟩ | hw |
    ⟨tx, s, led1, e, _, hs, hbr, hins, hw⟩ |
    ⟨tx, s, led1, h2, _, hs, hbr, hins, hw⟩ <;>
    rw [hw] <;> constructor
  case _ => intro hmem; simp at hmem
  case _ => intro h st t hmem; simp at hmem
  case _ => intro hmem; simp at hmem
  case _ => intro h st t hmem; simp at hmem
  case _ => intro hmem; simp at hmem
  case _ => intro h st t hmem; simp at hmem
  case _ => intro hmem; simp at hmem
  case _ => intro h st t hmem; simp at hmem
  case _ => intro hmem; simp at hmem
  case _ => intro h st t hmem; simp at hmem
  case _ => intro hmem; simp at hmem
  case _ => intro h st t hmem; simp at hmem
  case _ => exact fun _ => ⟨s, hs, rfl, rfl⟩
  case _ => intro h st t hmem; simp at hmem
  case _ => exact fun _ => ⟨s, hs, rfl, rfl⟩
  case _ =>
    intro h st t hmem
    simp only [List.mem_cons, List.not_mem_nil, or_false] at hmem
    rcases hmem with hmem | hmem | hmem
    · exact absurd hmem (by simp)
    · exact absurd hmem (by simp)
    · obtain ⟨hh, hst, ht⟩ := Event.ledgerUpdate.inj hmem
      subst hh; subst hst; subst ht
      exact ⟨rfl, rfl, h2, hbr, rfl, rfl, rfl⟩

/-- Claim C2: a withdrawal that fails with `InsufficientFunds` or with a
signing failure (wrong password, missing account, …) aborts before any ledger
write — the ledger is exactly as before and no ledger event was emitted. -/
theorem c2_abort_before_ledger_write (env : WithdrawEnv) (led : List TxRecord)
    (cid : Nat) (fa ta : String) (v : Nat) :
    (∀ b n, (withdraw_eth env led cid fa ta v).1
        = .error (.insufficientFunds b n) →
      (withdraw_eth env led cid fa ta v).2.1 = led
      ∧ (withdraw_eth env led cid fa ta v).2.2 = [])
    ∧ (∀ se, (withdraw_eth env led cid fa ta v).1 = .error (.signFailed se) →
      (withdraw_eth env led cid fa ta v).2.1 = led
      ∧ (withdraw_eth env led cid fa ta v).2.2 = []) := by
  rcases withdraw_eth_cases env led cid fa ta v with
    ⟨e, hw⟩ | ⟨e, hw⟩ | ⟨e, hw⟩ | ⟨b, n, hw⟩ | ⟨se, _, hw⟩ | hw |
    ⟨tx, s, led1, e, _, hs, hbr, hins, hw⟩ |
    ⟨tx, s, led1, h2, _, hs, hbr, hins, hw⟩ <;>
    rw [hw] <;> exact ⟨fun b' n' h => by simp_all, fun se' h => by simp_all⟩

/-- Claim C3 (amended): along the orchestrator's own flow — `withdraw_eth`
followed, on success, by the receipt wait — and with the broadcast-accepted
hash agreeing with the signed hash (the normal case the spec notes), the
sequence of status values written for any hash is a prefix of
SIGNED, BROADCAST, CONFIRMED: no backward move and no skipping of SIGNED. -/
theorem c3_status_monotonic (env : WithdrawEnv) (wenv : WaitEnv)
    (led : List TxRecord) (cid : Nat) (fa ta : String) (v : Nat)
    (hmatch : ∀ s h2, env.signRes = .ok s → env.broadcastRes = .ok h2 →
      pyLower h2 = pyLower s.hash) (h : String) :
    statusWritesFor h ((withdraw_and_wait env wenv led cid fa ta v).2.2) = []
    ∨ statusWritesFor h ((withdraw_and_wait env wenv led cid fa ta v).2.2)
        = ["SIGNED"]
    ∨ statusWritesFor h ((withdraw_and_wait env wenv led cid fa ta v).2.2)
        = ["SIGNED", "BROADCAST"]
    ∨ statusWritesFor h ((withdraw_and_wait env wenv led cid fa ta v).2.2)
        = ["SIGNED", "BROADCAST", "CONFIRMED"] := by
  rcases withdraw_eth_cases env led cid fa ta v with
    ⟨e, hw⟩ | ⟨e, hw⟩ | ⟨e, hw⟩ | ⟨b, n, hw⟩ | ⟨se, _, hw⟩ | hw |
    ⟨tx, s, led1, e, _, hs, hbr, hins, hw⟩ |
    ⟨tx, s, led1, h2, _, hs, hbr, hins, hw⟩
  · simp [withdraw_and_wait, hw, statusWritesFor]
  · simp [withdraw_and_wait, hw, statusWritesFor]
  · simp [withdraw_and_wait, hw, statusWritesFor]
  · simp [withdraw_and_wait, hw, statusWritesFor]
  · simp [withdraw_and_wait, hw, statusWritesFor]
  · simp [withdraw_and_wait, hw, statusWritesFor]
  · by_cases hcase : pyLower s.hash == h <;>
      simp [withdraw_and_wait, hw, statusWritesFor, hcase]
  · have hm : pyLower h2 = pyLower s.hash := hmatch s h2 hs hbr
    rcases hwr : (broadcaster_wait_receipt wenv.oracle wenv.timeout_sec
        wenv.poll_sec).1 with _ | r
    · by_cases hcase : pyLower s.hash == h <;>
        simp [withdraw_and_wait, hw, withdraw_wait_receipt, hwr,
          statusWritesFor, hm, hcase]
    · by_cases hst : r.status = 1
      · by_cases hcase : pyLower s.hash == h <;>
          simp [withdraw_and_wait, hw, withdraw_wait_receipt, hwr, hst,
            statusWritesFor, hm, hcase]
      · by_cases hcase : pyLower s.hash == h <;>
          simp [withdraw_and_wait, hw, withdraw_wait_receipt, hwr, hst,
            statusWritesFor, hm, hcase]

/-- A concrete happy-path environment: gas 21000, max fee 16 wei, ample
balance, signing and broadcast both succeed on hash `0xAB`. -/
def envEx : WithdrawEnv :=
  { buildRes := .ok { gas := 21000, nonce := 3 },
    feeRes := .ok (suggest_fees_1559 (some 7) 5 2),
    balanceRes := .ok 1000000000,
    signRes := .ok { raw := "0xdead", hash := "0xAB" },
    broadcastRes := .ok "0xAB",
    now := 100 }

/-- The same environment with a wrong keystore password. -/
def envExBadPw : WithdrawEnv :=
  { envEx with signRes := .error .badPassword }

/-- A wait environment whose first poll finds a successful receipt. -/
def wenvEx : WaitEnv :=
  { oracle := fun _ => .found { status := 1 },
    timeout_sec := 9, poll_sec := 3, now := 101 }

/-- Witness for C1 on the happy-path environment: the broadcast attempt is in
the trace, the SIGNED insert is the first event and the attempt the second. -/
theorem c1_signed_before_broadcast_witness :
    Event.broadcastAttempt ∈ (withdraw_eth envEx [] 1 "0xFA" "0xTA" 5).2.2
    ∧ ∃ s, envEx.signRes = .ok s
        ∧ (withdraw_eth envEx [] 1 "0xFA" "0xTA" 5).2.2.head?
            = some (Event.ledgerInsert (pyLower s.hash) "SIGNED")
        ∧ (withdraw_eth envEx [] 1 "0xFA" "0xTA" 5).2.2.get? 1
            = some Event.broadcastAttempt :=
  have hmem : Event.broadcastAttempt
      ∈ (withdraw_eth envEx [] 1 "0xFA" "0xTA" 5).2.2 := by decide
  ⟨hmem, (c1_signed_before_broadcast envEx [] 1 "0xFA" "0xTA" 5).1 hmem⟩

/-- Witness for C2: with a bad password the ledger stays empty and no ledger
event is emitted. -/
theorem c2_abort_before_ledger_write_witness :
    (withdraw_eth envExBadPw [] 1 "0xFA" "0xTA" 5).2.1 = []
    ∧ (withdraw_eth envExBadPw [] 1 "0xFA" "0xTA" 5).2.2 = [] :=
  (c2_abort_before_ledger_write envExBadPw [] 1 "0xFA" "0xTA" 5).2
    .badPassword (by decide)

/-- Witness for C3 (amended) on the happy path with a confirming receipt. -/
theorem c3_status_monotonic_witness :
    statusWritesFor "0xab"
        ((withdraw_and_wait envEx wenvEx [] 1 "0xFA" "0xTA" 5).2.2) = []
    ∨ statusWritesFor "0xab"
        ((withdraw_and_wait envEx wenvEx [] 1 "0xFA" "0xTA" 5).2.2)
        = ["SIGNED"]
    ∨ statusWritesFor "0xab"
        ((withdraw_and_wait envEx wenvEx [] 1 "0xFA" "0xTA" 5).2.2)
        = ["SIGNED", "BROADCAST"]
    ∨ statusWritesFor "0xab"
        ((withdraw_and_wait envEx wenvEx [] 1 "0xFA" "0xTA" 5).2.2)
        = ["SIGNED", "BROADCAST", "CONFIRMED"] :=
  c3_status_monotonic envEx wenvEx [] 1 "0xFA" "0xTA" 5
    (fun s h2 hs hb => by cases hs; cases hb; rfl) "0xab"

/-- Claim C9: `resolve_chain_id` accepts a numeric id unchanged, parses an
all-digits string, resolves canonical names and aliases case-insensitively
and whitespace-trimmed (every alias of Base Mainnet yields 8453, every alias
of the Sepolia testnet yields 11155111), and on no match fails with
`UnknownChain` carrying exactly the sorted list of all known non-numeric
identifiers. -/
theorem c9_resolve_chain_id (n : Nat) (s : String) :
    resolve_chain_id chainsConfig (.inl n) = .ok n
    ∧ (pyIsDigit s = true →
        resolve_chain_id chainsConfig (.inr s) = .ok (pyToNat s))
    ∧ (∀ a ∈ (["base", "BASE", " base ", "Base Mainnet", "8453"] :
          List String),
        resolve_chain_id chainsConfig (.inr a) = .ok 8453)
    ∧ (∀ a ∈ (["sepolia", "SEPOLIA", "eth-sepolia", "Ethereum Sepolia",
          "11155111"] : List String),
        resolve_chain_id chainsConfig (.inr a) = .ok 11155111)
    ∧ (pyIsDigit s = false →
        dictGet (build_chain_mapping chainsConfig) (pyStrip (pyLower s))
          = none →
        resolve_chain_id chainsConfig (.inr s)
          = .error (.unknownChain
              (availableChains (build_chain_mapping chainsConfig))))
    ∧ availableChains (build_chain_mapping chainsConfig)
        = ["base", "base mainnet", "base sepolia", "base-sepolia",
           "basesepolia", "eth", "eth-sepolia", "ethereum",
           "ethereum mainnet", "ethereum sepolia", "mainnet", "sepolia"] := by
  refine ⟨rfl, fun hd => ?_, ?_, ?_, fun hd hnone => ?_, by decide⟩
  · simp [resolve_chain_id, hd]
  · decide
  · decide
  · simp [resolve_chain_id, hd, hnone]

/-- Witness for C9: a numeric string, a cased alias, and an unknown
identifier with the full list of known identifiers in the error. -/
theorem c9_resolve_chain_id_witness :
    resolve_chain_id chainsConfig (.inr "42") = .ok 42
    ∧ resolve_chain_id chainsConfig (.inr "BASE") = .ok 8453
    ∧ resolve_chain_id chainsConfig (.inr "dogecoin")
        = .error (.unknownChain
            ["base", "base mainnet", "base sepolia", "base-sepolia",
             "basesepolia", "eth", "eth-sepolia", "ethereum",
             "ethereum mainnet", "ethereum sepolia", "mainnet", "sepolia"]) :=
  ⟨(c9_resolve_chain_id 0 "42").2.1 (by decide),
   (c9_resolve_chain_id 0 "BASE").2.2.1 "BASE" (by simp),
   by
    have H := (c9_resolve_chain_id 0 "dogecoin").2.2.2.2.1 (by decide)
      (by decide)
    rw [H, (c9_resolve_chain_id 0 "dogecoin").2.2.2.2.2]⟩

end Dwallet
